import Mathlib

/-!
Shallow embedding of `src/index.ts` of plane-mcp-server: the tool-call
dispatcher (`CallToolRequestSchema` handler), its per-tool argument
validation, the assignees normalization block, the list-issues query-string
construction, and the HTTP result wrapping of `callPlaneAPI`.

JavaScript objects are modelled as association lists kept in enumeration
order (the embedding's enumeration order is the stored field order);
`undefined` is the explicit `Json.undef` value.  Thrown exceptions are
modelled with `Except`; the `fetch` call is modelled by an oracle value
`FetchOutcome` describing what the network did.
-/

namespace PlaneMCP

/-- JavaScript values as they occur in tool-call arguments and JSON bodies.
`undef` models the JavaScript value `undefined`.  Numbers are modelled as
integers (every numeric literal in the spec examples is integral). -/
inductive Json where
  | undef : Json
  | null : Json
  | bool : Bool → Json
  | num : Int → Json
  | str : String → Json
  | arr : List Json → Json
  | obj : List (String × Json) → Json
deriving Repr

/-- A JavaScript object: fields in enumeration order. -/
abbrev Obj := List (String × Json)

/-- Property access `o.k`: first matching field, `undefined` when absent. -/
def objGet (o : Obj) (k : String) : Json :=
  match o with
  | [] => Json.undef
  | (k2, v) :: rest => if k2 = k then v else objGet rest k

/-- Key removal, as done both by rest-destructuring `\x7b k, ...rest \x7d = o`
and by `delete o.k`: every field with that key is dropped, the others keep
their order (a JavaScript object holds a key at most once). -/
def objRemove (o : Obj) (k : String) : Obj :=
  match o with
  | [] => []
  | (k2, v) :: rest =>
    if k2 = k then objRemove rest k else (k2, v) :: objRemove rest k

/-- Property assignment `o.k = v`: overwrite the first occurrence in place
(JavaScript keeps the original insertion position), append when absent. -/
def objSet (o : Obj) (k : String) (v : Json) : Obj :=
  match o with
  | [] => [(k, v)]
  | (k2, v2) :: rest =>
    if k2 = k then (k, v) :: rest else (k2, v2) :: objSet rest k v

/-- JavaScript truthiness of a value (`if (x)`); `NaN` is not modelled. -/
def truthy : Json → Bool
  | .undef => false
  | .null => false
  | .bool b => b
  | .num n => n != 0
  | .str s => s != ""
  | .arr _ => true
  | .obj _ => true

/-- `Array.isArray(x)`. -/
def isArrayJson : Json → Bool
  | .arr _ => true
  | _ => false

/-- `typeof x === "string"`. -/
def isStringJson : Json → Bool
  | .str _ => true
  | _ => false

/-- `typeof x === "object"` (true for `null`, arrays and plain objects). -/
def typeofObject : Json → Bool
  | .null => true
  | .arr _ => true
  | .obj _ => true
  | _ => false

/-- `x === undefined`. -/
def isUndef : Json → Bool
  | .undef => true
  | _ => false

/-- `x === null`. -/
def isNullJson : Json → Bool
  | .null => true
  | _ => false

/-- Property access on an arbitrary value, `(x as Record)[k]`: fields of a
plain object, `undefined` for everything else (arrays and primitives have no
string-keyed own properties in the shapes that reach this access). -/
def jsonField (j : Json) (k : String) : Json :=
  match j with
  | .obj fs => objGet fs k
  | _ => Json.undef

/-- `Object.values(x)`: the field values of an object in enumeration order
(the elements for an array; only plain objects reach this call in the code). -/
def objValues : Json → List Json
  | .obj fs => fs.map Prod.snd
  | .arr xs => xs
  | _ => []

/-- The assignees-normalisation block that appears verbatim in both the
`create-issue` and the `update-issue` cases of the handler
(`src/index.ts` lines 314-337 and 402-425): guarded by JavaScript
truthiness of `data.assignees`, then (1) a truthy non-array object with
truthy `project_id` and `name` fields is treated as a misplaced whole issue
and the field is deleted, (2) arrays are left alone, (3) a string is
wrapped into a singleton array, (4) another object is replaced by its
`Object.values`, (5) anything else truthy has the field deleted. -/
def normalizeAssignees (data : Obj) : Obj :=
  let a := objGet data "assignees"
  if truthy a then
    if typeofObject a && !(isArrayJson a) && truthy (jsonField a "project_id")
        && truthy (jsonField a "name") then
      objRemove data "assignees"
    else if !(isArrayJson a) then
      if isStringJson a then
        objSet data "assignees" (Json.arr [a])
      else if typeofObject a then
        objSet data "assignees" (Json.arr (objValues a))
      else
        objRemove data "assignees"
    else
      data
  else
    data

mutual

/-- JavaScript `String(x)` on the values that can appear as query params. -/
def jsToString : Json → String
  | .undef => "undefined"
  | .null => "null"
  | .bool b => if b then "true" else "false"
  | .num n => toString n
  | .str s => s
  | .arr xs => jsArrString xs
  | .obj _ => "[object Object]"

/-- `Array.prototype.toString`: elements joined by commas, with `null` and
`undefined` elements rendered as the empty string. -/
def jsArrString : List Json → String
  | [] => ""
  | x :: xs =>
    (if isUndef x || isNullJson x then "" else jsToString x)
      ++ (match xs with
          | [] => ""
          | _ => "," ++ jsArrString xs)

end

/-- UTF-8 bytes of a Unicode code point (the encoding `encodeURIComponent`
percent-escapes byte by byte). -/
def utf8Bytes (n : Nat) : List Nat :=
  if n < 128 then [n]
  else if n < 2048 then [192 + n / 64, 128 + n % 64]
  else if n < 65536 then [224 + n / 4096, 128 + (n / 64) % 64, 128 + n % 64]
  else [240 + n / 262144, 128 + (n / 4096) % 64, 128 + (n / 64) % 64, 128 + n % 64]

/-- Uppercase hexadecimal digit. -/
def hexDigitUpper (n : Nat) : Char :=
  if n < 10 then Char.ofNat (48 + n) else Char.ofNat (55 + n)

/-- The characters `encodeURIComponent` leaves unescaped:
`A-Z a-z 0-9 - _ . ! ~ * ' ( )`. -/
def isURIUnreserved (c : Char) : Bool :=
  c.isAlpha || c.isDigit || c == '-' || c == '_' || c == '.' || c == '!'
    || c == '~' || c == '*' || c == Char.ofNat 39 || c == '(' || c == ')'

/-- `encodeURIComponent(s)`: unreserved characters stay, every other UTF-8
byte becomes `%XX` with uppercase hex digits. -/
def encodeURIComponent (s : String) : String :=
  String.join (s.data.map (fun c =>
    if isURIUnreserved c then String.singleton c
    else String.join ((utf8Bytes c.toNat).map (fun b =>
      "%" ++ String.singleton (hexDigitUpper (b / 16))
        ++ String.singleton (hexDigitUpper (b % 16))))))

/-- Tool-name normalisation, `name.replace(/_/g, "-")` (line 284). -/
def normalizeName (s : String) : String :=
  String.mk (s.data.map (fun c => if c = '_' then '-' else c))

/-- What the switch statement of the handler decides before any network
activity: an unknown-tool result, a thrown validation error (so no request
is constructed), or the single outbound HTTP request (method, endpoint
path relative to the workspace base URL, optional JSON body). -/
inductive DispatchOutcome where
  | unknownTool : String → DispatchOutcome
  | validationError : String → DispatchOutcome
  | request : String → String → Option Obj → DispatchOutcome
deriving Repr

/-- The query string of the `list-issues` case (lines 356-364): entries of
the remaining params in enumeration order, entries with `undefined` values
filtered out, each rendered as `key=encodeURIComponent(String(value))`,
joined with `&`; a nonempty result is prefixed with `?`. -/
def queryStringOf (queryParams : Obj) : String :=
  let queryString := String.intercalate "&"
    ((queryParams.filter (fun p => !(isUndef p.2))).map
      (fun p => p.1 ++ "=" ++ encodeURIComponent (jsToString p.2)))
  if queryString = "" then "" else "?" ++ queryString

/-- The switch statement of the `CallToolRequestSchema` handler
(lines 287-445), applied to the already-normalised tool name. -/
def dispatchCore (n : String) (args : Obj) : DispatchOutcome :=
  match n with
  | "list-projects" =>
      DispatchOutcome.request "GET" "/projects/" none
  | "get-project" =>
      match objGet args "project_id" with
      | Json.str pid =>
          DispatchOutcome.request "GET" ("/projects/" ++ pid ++ "/") none
      | _ => DispatchOutcome.validationError "Project ID is required"
  | "create-issue" =>
      match objGet args "project_id" with
      | Json.str pid =>
          DispatchOutcome.request "POST" ("/projects/" ++ pid ++ "/issues/")
            (some (normalizeAssignees (objRemove args "project_id")))
      | _ => DispatchOutcome.validationError "Project ID is required"
  | "list-issues" =>
      match objGet args "project_id" with
      | Json.str pid =>
          DispatchOutcome.request "GET"
            ("/projects/" ++ pid ++ "/issues/"
              ++ queryStringOf (objRemove args "project_id")) none
      | _ => DispatchOutcome.validationError "Project ID is required"
  | "get-issue" =>
      match objGet args "project_id", objGet args "issue_id" with
      | Json.str pid, Json.str iid =>
          DispatchOutcome.request "GET"
            ("/projects/" ++ pid ++ "/issues/" ++ iid ++ "/") none
      | _, _ =>
          DispatchOutcome.validationError "Project ID and Issue ID are required"
  | "update-issue" =>
      match objGet args "project_id", objGet args "issue_id" with
      | Json.str pid, Json.str iid =>
          DispatchOutcome.request "PATCH"
            ("/projects/" ++ pid ++ "/issues/" ++ iid ++ "/")
            (some (normalizeAssignees
              (objRemove (objRemove args "project_id") "issue_id")))
      | _, _ =>
          DispatchOutcome.validationError "Project ID and Issue ID are required"
  | _ => DispatchOutcome.unknownTool n

/-- Dispatch for a raw tool name: the handler first rewrites underscores to
hyphens, then switches on the result. -/
def dispatch (name : String) (args : Obj) : DispatchOutcome :=
  dispatchCore (normalizeName name) args

/-- What the network did for the one `fetch` of a call: the promise
rejected with an error message, or a response arrived with a status code,
status text, a body text (`none` when `response.text()` itself fails) and
the outcome of `response.json()` (`Except.error` carries the parse-failure
message). -/
inductive FetchOutcome where
  | networkError : String → FetchOutcome
  | response : Nat → String → Option String → Except String Json → FetchOutcome

/-- `response.ok`: status in the inclusive range 200-299. -/
def fetchOk (status : Nat) : Bool :=
  200 ≤ status && status ≤ 299

/-- `callPlaneAPI` (lines 203-251) given the network's behaviour: a non-ok
status throws `Plane API error: <status> <statusText>\n<body or placeholder>`,
a 204 answers `\x7b success: true \x7d` without touching the body, otherwise
the parsed JSON body is returned; every throw inside the function (including
the fetch rejection and a JSON parse failure) is re-wrapped by its own catch
clause as `Error calling Plane API: <message>`. -/
def callPlaneAPI (world : FetchOutcome) : Except String Json :=
  match world with
  | .networkError msg => .error ("Error calling Plane API: " ++ msg)
  | .response status statusText bodyText bodyJson =>
    if !(fetchOk status) then
      .error ("Error calling Plane API: " ++ "Plane API error: "
        ++ toString status ++ " " ++ statusText ++ "\n"
        ++ bodyText.getD "Unable to parse error response")
    else if status = 204 then
      .ok (Json.obj [("success", Json.bool true)])
    else
      match bodyJson with
      | .ok j => .ok j
      | .error m => .error ("Error calling Plane API: " ++ m)

/-- One character of a JSON string literal as `JSON.stringify` escapes it. -/
def escapeJsonChar (c : Char) : String :=
  if c = '"' then "\\\""
  else if c = '\\' then "\\\\"
  else if c = '\n' then "\\n"
  else if c = '\r' then "\\r"
  else if c = '\t' then "\\t"
  else if c.toNat = 8 then "\\b"
  else if c.toNat = 12 then "\\f"
  else if c.toNat < 32 then
    "\\u00" ++ String.singleton (hexDigitUpper (c.toNat / 16))
      ++ String.singleton (hexDigitUpper (c.toNat % 16))
  else String.singleton c

/-- A JSON string literal. -/
def jsonQuote (s : String) : String :=
  "\"" ++ String.join (s.data.map escapeJsonChar) ++ "\""

mutual

/-- `JSON.stringify(v, null, 2)` at nesting prefix `indent`; `none` is the
undefined result `JSON.stringify(undefined)` returns. -/
def stringifyJson (indent : String) : Json → Option String
  | .undef => none
  | .null => some "null"
  | .bool b => some (if b then "true" else "false")
  | .num n => some (toString n)
  | .str s => some (jsonQuote s)
  | .arr xs =>
    some (match stringifyElems (indent ++ "  ") xs with
      | [] => "[]"
      | es => "[\n"
          ++ String.intercalate ",\n" (es.map (fun e => indent ++ "  " ++ e))
          ++ "\n" ++ indent ++ "]")
  | .obj fs =>
    some (match stringifyFields (indent ++ "  ") fs with
      | [] => "\x7b\x7d"
      | es => "\x7b\n"
          ++ String.intercalate ",\n" (es.map (fun e => indent ++ "  " ++ e))
          ++ "\n" ++ indent ++ "\x7d")

/-- Array elements: `undefined` renders as `null`. -/
def stringifyElems (indent : String) : List Json → List String
  | [] => []
  | x :: xs => ((stringifyJson indent x).getD "null") :: stringifyElems indent xs

/-- Object fields: a field whose value stringifies to undefined is skipped. -/
def stringifyFields (indent : String) : List (String × Json) → List String
  | [] => []
  | (k, v) :: fs =>
    match stringifyJson indent v with
    | none => stringifyFields indent fs
    | some s => (jsonQuote k ++ ": " ++ s) :: stringifyFields indent fs

end

/-- Top-level `JSON.stringify(v, null, 2)` as the handler uses it on parsed
response JSON (which never contains `undefined`). -/
def stringify2 (v : Json) : String :=
  (stringifyJson "" v).getD "undefined"

/-- The single content item the handler returns: its text and the `isError`
flag. -/
structure ToolResult where
  text : String
  isError : Bool
deriving Repr

/-- The whole `CallToolRequestSchema` handler (lines 279-459) for one call,
with the network's behaviour supplied as an oracle: an unknown tool answers
`Unknown tool: <normalized name>` directly; a thrown validation error is
caught by the handler's catch clause and wrapped as `Error: <message>`; a
dispatched request formats the API result as pretty-printed JSON on
success, and any error thrown by `callPlaneAPI` is caught and wrapped as
`Error: <message>`. -/
def handleCall (name : String) (args : Obj) (world : FetchOutcome) : ToolResult :=
  match dispatch name args with
  | .unknownTool n => ⟨"Unknown tool: " ++ n, true⟩
  | .validationError msg => ⟨"Error: " ++ msg, true⟩
  | .request _ _ _ =>
    match callPlaneAPI world with
    | .ok j => ⟨stringify2 j, false⟩
    | .error e => ⟨"Error: " ++ e, true⟩

/-- The same tool name written in underscore style: every hyphen replaced
by an underscore (the separator style some callers use, which line 284
folds back to hyphens). -/
def underscoreStyle (s : String) : String :=
  String.mk (s.data.map (fun c => if c = '-' then '_' else c))

/-! ### Basic lemmas about object operations -/

theorem objGet_objRemove_ne (o : Obj) (k k2 : String) (h : k2 ≠ k) :
    objGet (objRemove o k) k2 = objGet o k2 := by
  induction o with
  | nil => rfl
  | cons p rest ih =>
    obtain ⟨k3, v⟩ := p
    simp only [objRemove, objGet]
    by_cases h3 : k3 = k
    · rw [if_pos h3, ih, if_neg (fun h32 => h (h32.symm.trans h3))]
    · rw [if_neg h3]
      by_cases h32 : k3 = k2
      · simp only [objGet, if_pos h32]
      · simp only [objGet, if_neg h32]
        exact ih

theorem objGet_objRemove_self (o : Obj) (k : String) :
    objGet (objRemove o k) k = Json.undef := by
  induction o with
  | nil => rfl
  | cons p rest ih =>
    obtain ⟨k3, v⟩ := p
    simp only [objRemove]
    by_cases h3 : k3 = k
    · rw [if_pos h3]
      exact ih
    · rw [if_neg h3]
      simp only [objGet, if_neg h3]
      exact ih

theorem objGet_objSet_ne (o : Obj) (k k2 : String) (v : Json) (h : k2 ≠ k) :
    objGet (objSet o k v) k2 = objGet o k2 := by
  induction o with
  | nil =>
    simp only [objSet, objGet]
    rw [if_neg (fun h32 => h h32.symm)]
  | cons p rest ih =>
    obtain ⟨k3, v2⟩ := p
    simp only [objSet]
    by_cases h3 : k3 = k
    · rw [if_pos h3]
      simp only [objGet, if_neg (show ¬ k = k2 from fun h32 => h h32.symm)]
      rw [if_neg (show ¬ k3 = k2 from fun h32 => h (h32.symm.trans h3))]
    · rw [if_neg h3]
      by_cases h32 : k3 = k2
      · simp only [objGet, if_pos h32]
      · simp only [objGet, if_neg h32]
        exact ih

/-- The assignees normalization touches no field other than `assignees`. -/
theorem objGet_normalizeAssignees_ne (d : Obj) (k : String) (h : k ≠ "assignees") :
    objGet (normalizeAssignees d) k = objGet d k := by
  simp only [normalizeAssignees]
  split
  · split
    · exact objGet_objRemove_ne d "assignees" k h
    · split
      · split
        · exact objGet_objSet_ne d "assignees" k _ h
        · split
          · exact objGet_objSet_ne d "assignees" k _ h
          · exact objGet_objRemove_ne d "assignees" k h
      · rfl
  · rfl

/-! ### Reduction of `dispatch` at each concrete tool name -/

theorem dispatch_list_projects (args : Obj) :
    dispatch "list-projects" args = DispatchOutcome.request "GET" "/projects/" none := rfl

theorem dispatch_get_project (args : Obj) :
    dispatch "get-project" args =
      (match objGet args "project_id" with
       | Json.str pid => DispatchOutcome.request "GET" ("/projects/" ++ pid ++ "/") none
       | _ => DispatchOutcome.validationError "Project ID is required") := rfl

theorem dispatch_create_issue (args : Obj) :
    dispatch "create-issue" args =
      (match objGet args "project_id" with
       | Json.str pid =>
           DispatchOutcome.request "POST" ("/projects/" ++ pid ++ "/issues/")
             (some (normalizeAssignees (objRemove args "project_id")))
       | _ => DispatchOutcome.validationError "Project ID is required") := rfl

theorem dispatch_list_issues (args : Obj) :
    dispatch "list-issues" args =
      (match objGet args "project_id" with
       | Json.str pid =>
           DispatchOutcome.request "GET"
             ("/projects/" ++ pid ++ "/issues/"
               ++ queryStringOf (objRemove args "project_id")) none
       | _ => DispatchOutcome.validationError "Project ID is required") := rfl

theorem dispatch_get_issue (args : Obj) :
    dispatch "get-issue" args =
      (match objGet args "project_id", objGet args "issue_id" with
       | Json.str pid, Json.str iid =>
           DispatchOutcome.request "GET"
             ("/projects/" ++ pid ++ "/issues/" ++ iid ++ "/") none
       | _, _ =>
           DispatchOutcome.validationError "Project ID and Issue ID are required") := rfl

theorem dispatch_update_issue (args : Obj) :
    dispatch "update-issue" args =
      (match objGet args "project_id", objGet args "issue_id" with
       | Json.str pid, Json.str iid =>
           DispatchOutcome.request "PATCH"
             ("/projects/" ++ pid ++ "/issues/" ++ iid ++ "/")
             (some (normalizeAssignees
               (objRemove (objRemove args "project_id") "issue_id")))
       | _, _ =>
           DispatchOutcome.validationError "Project ID and Issue ID are required") := rfl

theorem dispatch_get_project_str (args : Obj) (pid : String)
    (h : objGet args "project_id" = Json.str pid) :
    dispatch "get-project" args =
      DispatchOutcome.request "GET" ("/projects/" ++ pid ++ "/") none := by
  rw [dispatch_get_project, h]

theorem dispatch_create_issue_str (args : Obj) (pid : String)
    (h : objGet args "project_id" = Json.str pid) :
    dispatch "create-issue" args =
      DispatchOutcome.request "POST" ("/projects/" ++ pid ++ "/issues/")
        (some (normalizeAssignees (objRemove args "project_id"))) := by
  rw [dispatch_create_issue, h]

theorem dispatch_list_issues_str (args : Obj) (pid : String)
    (h : objGet args "project_id" = Json.str pid) :
    dispatch "list-issues" args =
      DispatchOutcome.request "GET"
        ("/projects/" ++ pid ++ "/issues/"
          ++ queryStringOf (objRemove args "project_id")) none := by
  rw [dispatch_list_issues, h]

theorem dispatch_get_issue_str (args : Obj) (pid iid : String)
    (hp : objGet args "project_id" = Json.str pid)
    (hi : objGet args "issue_id" = Json.str iid) :
    dispatch "get-issue" args =
      DispatchOutcome.request "GET"
        ("/projects/" ++ pid ++ "/issues/" ++ iid ++ "/") none := by
  rw [dispatch_get_issue, hp, hi]

theorem dispatch_update_issue_str (args : Obj) (pid iid : String)
    (hp : objGet args "project_id" = Json.str pid)
    (hi : objGet args "issue_id" = Json.str iid) :
    dispatch "update-issue" args =
      DispatchOutcome.request "PATCH"
        ("/projects/" ++ pid ++ "/issues/" ++ iid ++ "/")
        (some (normalizeAssignees
          (objRemove (objRemove args "project_id") "issue_id"))) := by
  rw [dispatch_update_issue, hp, hi]

theorem dispatch_get_project_invalid (args : Obj)
    (h : isStringJson (objGet args "project_id") = false) :
    dispatch "get-project" args =
      DispatchOutcome.validationError "Project ID is required" := by
  rw [dispatch_get_project]
  rcases he : objGet args "project_id" with _ | _ | b | n | s | xs | fs <;> try rfl
  rw [he] at h
  simp [isStringJson] at h

theorem dispatch_create_issue_invalid (args : Obj)
    (h : isStringJson (objGet args "project_id") = false) :
    dispatch "create-issue" args =
      DispatchOutcome.validationError "Project ID is required" := by
  rw [dispatch_create_issue]
  rcases he : objGet args "project_id" with _ | _ | b | n | s | xs | fs <;> try rfl
  rw [he] at h
  simp [isStringJson] at h

theorem dispatch_list_issues_invalid (args : Obj)
    (h : isStringJson (objGet args "project_id") = false) :
    dispatch "list-issues" args =
      DispatchOutcome.validationError "Project ID is required" := by
  rw [dispatch_list_issues]
  rcases he : objGet args "project_id" with _ | _ | b | n | s | xs | fs <;> try rfl
  rw [he] at h
  simp [isStringJson] at h

theorem dispatch_get_issue_invalid (args : Obj)
    (h : isStringJson (objGet args "project_id") = false
      ∨ isStringJson (objGet args "issue_id") = false) :
    dispatch "get-issue" args =
      DispatchOutcome.validationError "Project ID and Issue ID are required" := by
  rw [dispatch_get_issue]
  rcases hp : objGet args "project_id" with _ | _ | b | n | s | xs | fs <;>
    rcases hq : objGet args "issue_id" with _ | _ | b2 | n2 | s2 | xs2 | fs2 <;>
    try rfl
  rcases h with h | h
  · rw [hp] at h
    simp [isStringJson] at h
  · rw [hq] at h
    simp [isStringJson] at h

theorem dispatch_update_issue_invalid (args : Obj)
    (h : isStringJson (objGet args "project_id") = false
      ∨ isStringJson (objGet args "issue_id") = false) :
    dispatch "update-issue" args =
      DispatchOutcome.validationError "Project ID and Issue ID are required" := by
  rw [dispatch_update_issue]
  rcases hp : objGet args "project_id" with _ | _ | b | n | s | xs | fs <;>
    rcases hq : objGet args "issue_id" with _ | _ | b2 | n2 | s2 | xs2 | fs2 <;>
    try rfl
  rcases h with h | h
  · rw [hp] at h
    simp [isStringJson] at h
  · rw [hq] at h
    simp [isStringJson] at h

/-- A thrown validation error reaches the caller as the catch clause's
`Error: <message>` wrapping, error-flagged. -/
theorem handleCall_validation (name : String) (args : Obj) (w : FetchOutcome)
    (msg : String)
    (h : dispatch name args = DispatchOutcome.validationError msg) :
    handleCall name args w = ⟨"Error: " ++ msg, true⟩ := by
  unfold handleCall
  rw [h]

/-- Fields of `extra` never collide with the removed key. -/
theorem objRemove_eq_self (o : Obj) (k : String) (h : ∀ p ∈ o, p.1 ≠ k) :
    objRemove o k = o := by
  induction o with
  | nil => rfl
  | cons p rest ih =>
    obtain ⟨k2, v⟩ := p
    simp only [objRemove]
    rw [if_neg (h (k2, v) (List.mem_cons_self _ _)),
      ih (fun q hq => h q (List.mem_cons_of_mem _ hq))]

/-- C1, counterexample: the claim says a create-issue call whose required
field `name` is missing yields an error-flagged result and issues no
network request; but the handler only checks `project_id` (line 309), so
`create-issue` with `project_id` present and `name` absent still
constructs an outbound POST request. -/
theorem C1_counterexample :
    dispatch "create-issue" [("project_id", Json.str "P")] =
      DispatchOutcome.request "POST" "/projects/P/issues/" (some []) := rfl

/-- C1, amended: for the required-field checks the handler actually
performs (list-projects: none; get-project, create-issue, list-issues:
`project_id` only — `name` is not validated for create-issue; get-issue,
update-issue: `project_id` and `issue_id`), a missing or non-string
required field yields the error-flagged result `Error: <message naming the
required fields>` and the dispatch outcome is a validation error, not a
request, so no network request is issued (the result is the same for every
network behaviour `w`). -/
theorem C1_thm (args : Obj) (w : FetchOutcome) :
    (isStringJson (objGet args "project_id") = false →
      dispatch "get-project" args =
        DispatchOutcome.validationError "Project ID is required"
      ∧ dispatch "create-issue" args =
        DispatchOutcome.validationError "Project ID is required"
      ∧ dispatch "list-issues" args =
        DispatchOutcome.validationError "Project ID is required"
      ∧ handleCall "get-project" args w = ⟨"Error: Project ID is required", true⟩
      ∧ handleCall "create-issue" args w = ⟨"Error: Project ID is required", true⟩
      ∧ handleCall "list-issues" args w = ⟨"Error: Project ID is required", true⟩)
    ∧ ((isStringJson (objGet args "project_id") = false
        ∨ isStringJson (objGet args "issue_id") = false) →
      dispatch "get-issue" args =
        DispatchOutcome.validationError "Project ID and Issue ID are required"
      ∧ dispatch "update-issue" args =
        DispatchOutcome.validationError "Project ID and Issue ID are required"
      ∧ handleCall "get-issue" args w =
        ⟨"Error: Project ID and Issue ID are required", true⟩
      ∧ handleCall "update-issue" args w =
        ⟨"Error: Project ID and Issue ID are required", true⟩) := by
  constructor
  · intro h
    refine ⟨dispatch_get_project_invalid args h,
      dispatch_create_issue_invalid args h,
      dispatch_list_issues_invalid args h, ?_, ?_, ?_⟩
    · exact (handleCall_validation _ _ _ _ (dispatch_get_project_invalid args h)).trans rfl
    · exact (handleCall_validation _ _ _ _ (dispatch_create_issue_invalid args h)).trans rfl
    · exact (handleCall_validation _ _ _ _ (dispatch_list_issues_invalid args h)).trans rfl
  · intro h
    refine ⟨dispatch_get_issue_invalid args h,
      dispatch_update_issue_invalid args h, ?_, ?_⟩
    · exact (handleCall_validation _ _ _ _ (dispatch_get_issue_invalid args h)).trans rfl
    · exact (handleCall_validation _ _ _ _ (dispatch_update_issue_invalid args h)).trans rfl

/-- C1, witness: with empty arguments every validating tool fails with its
validation message, e.g. create-issue dispatches no request and get-issue
answers the error-flagged message. -/
theorem C1_witness :
    dispatch "create-issue" [] =
      DispatchOutcome.validationError "Project ID is required"
    ∧ handleCall "get-issue" [] (FetchOutcome.networkError "down") =
      ⟨"Error: Project ID and Issue ID are required", true⟩ := by
  have h := C1_thm [] (FetchOutcome.networkError "down")
  exact ⟨(h.1 (by decide)).2.1, (h.2 (Or.inl (by decide))).2.2.1⟩

/-- C3: for list-issues with `project_id` and any extra arguments (whose
keys differ from `project_id`, as JavaScript object keys are unique), the
outbound request is a GET to `/projects/<pid>/issues/` followed, when at
least one extra argument survives the defined-value filter, by `?` and the
query string built from the extra arguments in enumeration order,
`undefined` values filtered out, values (not keys) percent-encoded. -/
theorem C3_thm (pid : String) (extra : Obj)
    (h : ∀ p ∈ extra, p.1 ≠ "project_id") :
    dispatch "list-issues" (("project_id", Json.str pid) :: extra) =
      DispatchOutcome.request "GET"
        ("/projects/" ++ pid ++ "/issues/"
          ++ (if String.intercalate "&"
                ((extra.filter (fun p => !(isUndef p.2))).map
                  (fun p => p.1 ++ "=" ++ encodeURIComponent (jsToString p.2)))
              = ""
            then ""
            else "?" ++ String.intercalate "&"
                ((extra.filter (fun p => !(isUndef p.2))).map
                  (fun p => p.1 ++ "=" ++ encodeURIComponent (jsToString p.2)))))
        none := by
  have hget : objGet (("project_id", Json.str pid) :: extra) "project_id"
      = Json.str pid := by
    simp [objGet]
  rw [dispatch_list_issues_str _ pid hget]
  have hrem : objRemove (("project_id", Json.str pid) :: extra) "project_id"
      = extra := by
    simp only [objRemove, if_pos rfl]
    exact objRemove_eq_self extra "project_id" h
  rw [hrem]
  rfl

/-- C3, witness: the spec's concrete example,
`\x7b project_id: "P", priority: "high", limit: 10 \x7d` produces a GET to
`/projects/P/issues/?priority=high&limit=10`. -/
theorem C3_witness :
    dispatch "list-issues"
      [("project_id", Json.str "P"), ("priority", Json.str "high"),
        ("limit", Json.num 10)] =
      DispatchOutcome.request "GET" "/projects/P/issues/?priority=high&limit=10"
        none := by
  rw [C3_thm "P" [("priority", Json.str "high"), ("limit", Json.num 10)]
    (by decide)]
  rfl

/-- C4: writing a tool name in underscore style instead of hyphen style
changes neither the dispatched outbound request nor the produced result,
for every argument mapping and every network behaviour; in particular
`create_issue` and `create-issue` behave identically. -/
theorem C4_thm (name : String) (args : Obj) (w : FetchOutcome) :
    dispatch (underscoreStyle name) args = dispatch name args
    ∧ handleCall (underscoreStyle name) args w = handleCall name args w := by
  have hn : normalizeName (underscoreStyle name) = normalizeName name := by
    unfold normalizeName underscoreStyle
    simp only [List.map_map]
    have hf : ((fun c => if c = '_' then '-' else c) ∘ fun c => if c = '-' then '_' else c)
        = (fun c => if c = '_' then '-' else c) := by
      funext c
      by_cases h1 : c = '-'
      · subst h1
        decide
      · simp only [Function.comp_apply, if_neg h1]
    rw [hf]
  constructor
  · unfold dispatch
    rw [hn]
  · unfold handleCall dispatch
    rw [hn]

/-- C5: whenever a tool invocation dispatched an HTTP request and the
response has a non-2xx status, the result is error-flagged and its text
carries the numeric status code, the status text, and the raw response
body text — with the placeholder `Unable to parse error response`
substituted when the body cannot be read (`btext = none`). -/
theorem C5_thm (name : String) (args : Obj) (m e : String) (b : Option Obj)
    (status : Nat) (stext : String) (btext : Option String)
    (bjson : Except String Json)
    (hd : dispatch name args = DispatchOutcome.request m e b)
    (hs : fetchOk status = false) :
    handleCall name args (FetchOutcome.response status stext btext bjson) =
      ⟨"Error: " ++ ("Error calling Plane API: " ++ "Plane API error: "
          ++ toString status ++ " " ++ stext ++ "\n"
          ++ btext.getD "Unable to parse error response"), true⟩ := by
  simp only [handleCall, hd, callPlaneAPI, hs, Bool.not_false, if_pos]

/-- C5, witness: a 404 with body `missing` on get-project yields the
error-flagged text containing `404`, `Not Found` and the body. -/
theorem C5_witness :
    handleCall "get-project" [("project_id", Json.str "X")]
      (FetchOutcome.response 404 "Not Found" (some "missing")
        (Except.error "x")) =
      ⟨"Error: Error calling Plane API: Plane API error: 404 Not Found\nmissing",
        true⟩ := by
  have h := C5_thm "get-project" [("project_id", Json.str "X")]
    "GET" "/projects/X/" none 404 "Not Found" (some "missing")
    (Except.error "x") (by rfl) (by decide)
  exact h.trans (by rfl)

/-- C6: whenever a tool invocation dispatched an HTTP request and the
response status is 204, the result is a success (not error-flagged) whose
content is the pretty-printed JSON of `\x7b success: true \x7d`; the
response body is not decoded as JSON (the conclusion holds for every
`bjson`, including a failing decode). -/
theorem C6_thm (name : String) (args : Obj) (m e : String) (b : Option Obj)
    (stext : String) (btext : Option String) (bjson : Except String Json)
    (hd : dispatch name args = DispatchOutcome.request m e b) :
    handleCall name args (FetchOutcome.response 204 stext btext bjson) =
      ⟨"\x7b\n  \"success\": true\n\x7d", false⟩ := by
  unfold handleCall
  rw [hd]
  rfl

/-- C6, witness: a 204 on list-projects, with an unreadable body and a
failing JSON decode, still yields the success content. -/
theorem C6_witness :
    handleCall "list-projects" []
      (FetchOutcome.response 204 "No Content" none (Except.error "unread")) =
      ⟨"\x7b\n  \"success\": true\n\x7d", false⟩ :=
  C6_thm "list-projects" [] "GET" "/projects/" none "No Content" none
    (Except.error "unread") rfl

/-- C7: for every tool name, argument mapping and network behaviour, the
handler returns a uniform result: either it is not error-flagged, or it is
error-flagged and its text is a textual message of the form
`Error: <message>` (validation, remote HTTP and transport errors, all
caught at the dispatch boundary) or `Unknown tool: <name>`; no per-call
error escapes `handleCall`, which is a total function into results. -/
theorem C7_thm (name : String) (args : Obj) (w : FetchOutcome) :
    (handleCall name args w).isError = false
    ∨ (∃ m, handleCall name args w = ⟨"Error: " ++ m, true⟩)
    ∨ (∃ m, handleCall name args w = ⟨"Unknown tool: " ++ m, true⟩) := by
  unfold handleCall
  cases hd : dispatch name args with
  | unknownTool n => exact Or.inr (Or.inr ⟨n, rfl⟩)
  | validationError msg => exact Or.inr (Or.inl ⟨msg, rfl⟩)
  | request m e b =>
    cases hc : callPlaneAPI w with
    | ok j => exact Or.inl rfl
    | error er => exact Or.inr (Or.inl ⟨er, rfl⟩)

/-- C8: a tool name that normalizes to none of the six registered names
produces the error-flagged result `Unknown tool: <normalized name>`; the
dispatch outcome is `unknownTool`, not a request, so no network request is
issued and the result is the same for every network behaviour (and the
handler returns normally rather than raising). -/
theorem C8_thm (name : String) (args : Obj) (w : FetchOutcome)
    (h : normalizeName name ∉
      (["list-projects", "get-project", "create-issue", "list-issues",
        "get-issue", "update-issue"] : List String)) :
    dispatch name args = DispatchOutcome.unknownTool (normalizeName name)
    ∧ handleCall name args w =
      ⟨"Unknown tool: " ++ normalizeName name, true⟩ := by
  have hd : dispatch name args = DispatchOutcome.unknownTool (normalizeName name) := by
    unfold dispatch dispatchCore
    split
    · exact absurd (by simp_all) h
    · exact absurd (by simp_all) h
    · exact absurd (by simp_all) h
    · exact absurd (by simp_all) h
    · exact absurd (by simp_all) h
    · exact absurd (by simp_all) h
    · rfl
  refine ⟨hd, ?_⟩
  unfold handleCall
  rw [hd]

/-- C8, witness: `delete_issue` (a name the README-style separator swap
still leaves unregistered) yields the unknown-tool error result without a
request. -/
theorem C8_witness :
    dispatch "delete_issue" [] = DispatchOutcome.unknownTool "delete-issue"
    ∧ handleCall "delete_issue" [] (FetchOutcome.networkError "down") =
      ⟨"Unknown tool: delete-issue", true⟩ := by
  have h := C8_thm "delete_issue" [] (FetchOutcome.networkError "down")
    (by decide)
  exact ⟨h.1.trans (by rfl), h.2.trans (by rfl)⟩

theorem truthy_obj (fs : List (String × Json)) : truthy (Json.obj fs) = true := rfl

theorem typeofObject_obj (fs : List (String × Json)) :
    typeofObject (Json.obj fs) = true := rfl

theorem isArrayJson_obj (fs : List (String × Json)) :
    isArrayJson (Json.obj fs) = false := rfl

theorem isStringJson_obj (fs : List (String × Json)) :
    isStringJson (Json.obj fs) = false := rfl

theorem jsonField_obj (fs : List (String × Json)) (k : String) :
    jsonField (Json.obj fs) k = objGet fs k := rfl

theorem objValues_obj (fs : List (String × Json)) :
    objValues (Json.obj fs) = fs.map Prod.snd := rfl

/-- C2, counterexample: the claim says that for any value that is not the
nested-issue shape, an array, a string, or an object — branch (5) — the
`assignees` field is dropped from the outbound body; but for
`assignees: false` the truthiness guard (lines 315 and 403) skips the whole
normalization, and the field is forwarded unchanged in the POST body. -/
theorem C2_counterexample :
    dispatch "create-issue"
      [("project_id", Json.str "P"), ("name", Json.str "T"),
        ("assignees", Json.bool false)] =
      DispatchOutcome.request "POST" "/projects/P/issues/"
        (some [("name", Json.str "T"), ("assignees", Json.bool false)]) := rfl

/-- C2, amended: the normalization (shared verbatim by create-issue and
update-issue, which both apply `normalizeAssignees` to their outbound
body) runs only when the raw `assignees` value is truthy — falsy values
(`undefined`, `null`, `false`, `0`, `""`) are left untouched — and then
follows the claimed precedence, with the nested-issue detection requiring
the `project_id` and `name` fields to be truthy (not merely present):
(1) a non-array object with truthy `project_id` and `name` fields has the
field dropped; (2) an array is unchanged; (3) a (non-empty) string is
wrapped into a one-element array; (4) another object is replaced by its
values, ignoring keys; (5) any other truthy value has the field dropped. -/
theorem C2_thm (data : Obj) :
    (truthy (objGet data "assignees") = false → normalizeAssignees data = data)
    ∧ (∀ fs, objGet data "assignees" = Json.obj fs →
        truthy (objGet fs "project_id") = true →
        truthy (objGet fs "name") = true →
        normalizeAssignees data = objRemove data "assignees")
    ∧ (∀ xs, objGet data "assignees" = Json.arr xs →
        normalizeAssignees data = data)
    ∧ (∀ s, objGet data "assignees" = Json.str s → s ≠ "" →
        normalizeAssignees data = objSet data "assignees" (Json.arr [Json.str s]))
    ∧ (∀ fs, objGet data "assignees" = Json.obj fs →
        (truthy (objGet fs "project_id") = false
          ∨ truthy (objGet fs "name") = false) →
        normalizeAssignees data
          = objSet data "assignees" (Json.arr (fs.map Prod.snd)))
    ∧ ((objGet data "assignees" = Json.bool true
        ∨ ∃ n, objGet data "assignees" = Json.num n ∧ n ≠ 0) →
        normalizeAssignees data = objRemove data "assignees") := by
  refine ⟨?_, ?_, ?_, ?_, ?_, ?_⟩
  · intro h
    simp [normalizeAssignees, h]
  · intro fs hass hp hn2
    simp [normalizeAssignees, hass, truthy_obj, typeofObject_obj,
      isArrayJson_obj, jsonField_obj, hp, hn2]
  · intro xs hass
    simp [normalizeAssignees, hass, truthy, typeofObject, isArrayJson]
  · intro s hass hne
    simp [normalizeAssignees, hass, truthy, typeofObject, isArrayJson,
      isStringJson, bne_iff_ne, hne]
  · intro fs hass hor
    rcases hor with h | h <;>
      simp [normalizeAssignees, hass, truthy_obj, typeofObject_obj,
        isArrayJson_obj, isStringJson_obj, jsonField_obj, objValues_obj, h]
  · intro hor
    rcases hor with h | ⟨n, h, hn2⟩ <;>
      simp [normalizeAssignees, h, truthy, typeofObject, isArrayJson,
        isStringJson, bne_iff_ne, *]

/-- C2, witness: the spec's keyed-object example,
`assignees: \x7b "0": "u1", "1": "u2" \x7d` normalizes to `["u1","u2"]`. -/
theorem C2_witness :
    normalizeAssignees [("name", Json.str "T"),
      ("assignees", Json.obj [("0", Json.str "u1"), ("1", Json.str "u2")])] =
      [("name", Json.str "T"),
        ("assignees", Json.arr [Json.str "u1", Json.str "u2"])] := by
  have h := (C2_thm [("name", Json.str "T"),
    ("assignees", Json.obj [("0", Json.str "u1"), ("1", Json.str "u2")])]).2.2.2.2.1
    [("0", Json.str "u1"), ("1", Json.str "u2")] rfl (Or.inl (by decide))
  exact h.trans (by rfl)

/-- C9: the outbound JSON body of create-issue is the argument mapping with
the `project_id` key removed and assignees normalized; for update-issue it
is the mapping with both `project_id` and `issue_id` removed and assignees
normalized; the normalization touches no field but `assignees`, so every
other argument field is passed through unchanged, and the identifier
fields are absent (`undefined`) in the transmitted body — they appear only
in the request path. -/
theorem C9_thm (args : Obj) (pid iid : String) :
    (objGet args "project_id" = Json.str pid →
      dispatch "create-issue" args =
        DispatchOutcome.request "POST" ("/projects/" ++ pid ++ "/issues/")
          (some (normalizeAssignees (objRemove args "project_id"))))
    ∧ (objGet args "project_id" = Json.str pid →
        objGet args "issue_id" = Json.str iid →
      dispatch "update-issue" args =
        DispatchOutcome.request "PATCH"
          ("/projects/" ++ pid ++ "/issues/" ++ iid ++ "/")
          (some (normalizeAssignees
            (objRemove (objRemove args "project_id") "issue_id"))))
    ∧ (∀ (d : Obj) (k : String), k ≠ "assignees" →
        objGet (normalizeAssignees d) k = objGet d k)
    ∧ (∀ d : Obj,
        objGet (normalizeAssignees (objRemove d "project_id")) "project_id"
          = Json.undef
        ∧ objGet (normalizeAssignees
            (objRemove (objRemove d "project_id") "issue_id")) "project_id"
          = Json.undef
        ∧ objGet (normalizeAssignees
            (objRemove (objRemove d "project_id") "issue_id")) "issue_id"
          = Json.undef) := by
  refine ⟨dispatch_create_issue_str args pid,
    fun hp hi => dispatch_update_issue_str args pid iid hp hi,
    fun d k hk => objGet_normalizeAssignees_ne d k hk,
    fun d => ⟨?_, ?_, ?_⟩⟩
  · rw [objGet_normalizeAssignees_ne _ _ (by decide), objGet_objRemove_self]
  · rw [objGet_normalizeAssignees_ne _ _ (by decide),
      objGet_objRemove_ne _ _ _ (by decide), objGet_objRemove_self]
  · rw [objGet_normalizeAssignees_ne _ _ (by decide), objGet_objRemove_self]

/-- C9, witness: a create-issue call passes `name` and `priority` through
to the body unchanged while `project_id` moves to the path only. -/
theorem C9_witness :
    dispatch "create-issue"
      [("project_id", Json.str "P"), ("name", Json.str "T"),
        ("priority", Json.str "high")] =
      DispatchOutcome.request "POST" "/projects/P/issues/"
        (some [("name", Json.str "T"), ("priority", Json.str "high")]) := by
  have h := (C9_thm [("project_id", Json.str "P"), ("name", Json.str "T"),
    ("priority", Json.str "high")] "P" "x").1 rfl
  exact h.trans (by rfl)

/-- C10: when the raw `assignees` value is falsy (`null`, `false`, `0`, or
the empty string), the whole normalization is skipped — `normalizeAssignees`
is the identity — and that very value is forwarded unchanged in the
outbound JSON body of create-issue and update-issue. -/
theorem C10_thm (args : Obj) (pid iid : String) (v : Json)
    (hass : objGet args "assignees" = v)
    (hfalsy : v = Json.null ∨ v = Json.bool false ∨ v = Json.num 0
      ∨ v = Json.str "") :
    normalizeAssignees args = args
    ∧ (objGet args "project_id" = Json.str pid →
        dispatch "create-issue" args =
          DispatchOutcome.request "POST" ("/projects/" ++ pid ++ "/issues/")
            (some (objRemove args "project_id"))
        ∧ objGet (objRemove args "project_id") "assignees" = v)
    ∧ (objGet args "project_id" = Json.str pid →
        objGet args "issue_id" = Json.str iid →
        dispatch "update-issue" args =
          DispatchOutcome.request "PATCH"
            ("/projects/" ++ pid ++ "/issues/" ++ iid ++ "/")
            (some (objRemove (objRemove args "project_id") "issue_id"))
        ∧ objGet (objRemove (objRemove args "project_id") "issue_id")
            "assignees" = v) := by
  have htr : truthy v = false := by
    rcases hfalsy with rfl | rfl | rfl | rfl <;> rfl
  have hid : ∀ d : Obj, objGet d "assignees" = v → normalizeAssignees d = d := by
    intro d hd
    simp [normalizeAssignees, hd, htr]
  have hrem1 : objGet (objRemove args "project_id") "assignees" = v := by
    rw [objGet_objRemove_ne _ _ _ (by decide), hass]
  have hrem2 : objGet (objRemove (objRemove args "project_id") "issue_id")
      "assignees" = v := by
    rw [objGet_objRemove_ne _ _ _ (by decide),
      objGet_objRemove_ne _ _ _ (by decide), hass]
  refine ⟨hid args hass, fun hp => ⟨?_, hrem1⟩, fun hp hi => ⟨?_, hrem2⟩⟩
  · rw [dispatch_create_issue_str args pid hp, hid _ hrem1]
  · rw [dispatch_update_issue_str args pid iid hp hi, hid _ hrem2]

/-- C10, witness: `assignees: null` survives normalization untouched and is
forwarded as-is in the create-issue body. -/
theorem C10_witness :
    normalizeAssignees [("name", Json.str "T"), ("assignees", Json.null)] =
      [("name", Json.str "T"), ("assignees", Json.null)]
    ∧ dispatch "create-issue"
      [("project_id", Json.str "P"), ("assignees", Json.null)] =
      DispatchOutcome.request "POST" "/projects/P/issues/"
        (some [("assignees", Json.null)]) := by
  constructor
  · exact (C10_thm [("name", Json.str "T"), ("assignees", Json.null)]
      "P" "I" Json.null rfl (Or.inl rfl)).1
  · have h := (C10_thm [("project_id", Json.str "P"),
      ("assignees", Json.null)] "P" "I" Json.null rfl (Or.inl rfl)).2.1 rfl
    exact h.1

end PlaneMCP
